import Mathlib

/-!
Verification of the LyoJune project-manifest repair scripts.

The repository consists of Python scripts that splice entries into an Xcode
`project.pbxproj` manifest by string search and regex substitution.  This file
embeds the relevant scripts over `List Char` documents: Python string
primitives (`find`, `rfind`, slicing with negative indices, `replace`, the
`in` operator) are modelled exactly, and the regex patterns used by the
scripts are compiled into a token list (literals and starred character
classes) executed by a faithful backtracking matcher with Python's
leftmost-match / greedy-lazy priority semantics.

External effects are made explicit: file reads become parameters, file writes
become elements of a write trace, `uuid.uuid4()` / `random.randint` /
`os.urandom` draws become input streams.
-/

set_option maxRecDepth 100000
set_option maxHeartbeats 2000000

namespace LyoJune

/-! ## Python string primitives over `List Char` -/

/-- `haystack.find(needle, i)` scanning from the front: the auxiliary walk
returns the absolute index of the first position at or after `i` where
`needle` is a prefix, and `-1` when there is none (Python's convention). -/
def pyFindAux (needle : List Char) : List Char → Nat → Int
  | h, i =>
    if needle.isPrefixOf h then (i : Int)
    else
      match h with
      | [] => -1
      | _ :: t => pyFindAux needle t (i + 1)

/-- Python `haystack.find(needle, start)` (`start` defaults to `0`;
a negative `start` is clamped to `0` as in Python, a `start` beyond the end
yields `-1` for the non-empty needles used throughout this repository). -/
def pyFind (h needle : List Char) (start : Int) : Int :=
  let s := start.toNat
  pyFindAux needle (h.drop s) s

/-- Python `needle in haystack` (substring containment). -/
def pyContains (h needle : List Char) : Bool :=
  pyFind h needle 0 != -1

/-- Python `haystack.rfind(needle)`: the largest index at which `needle`
occurs, `-1` if none. -/
def pyRFindAux (needle : List Char) : List Char → Nat → Int → Int
  | h, i, best =>
    let best' := if needle.isPrefixOf h then (i : Int) else best
    match h with
    | [] => best'
    | _ :: t => pyRFindAux needle t (i + 1) best'

def pyRFind (h needle : List Char) : Int :=
  pyRFindAux needle h 0 (-1)

/-- Resolution of a Python slice bound: a negative index counts from the end
(clamped at `0`), a positive one is clamped at the length. -/
def pyIdx (len : Nat) (i : Int) : Nat :=
  if i < 0 then ((len : Int) + i).toNat else min i.toNat len

/-- Python `s[:i]` for an arbitrary (possibly negative) integer bound. -/
def pyTake (s : List Char) (i : Int) : List Char :=
  s.take (pyIdx s.length i)

/-- Python `s[i:]` for an arbitrary (possibly negative) integer bound. -/
def pyDrop (s : List Char) (i : Int) : List Char :=
  s.drop (pyIdx s.length i)

/-- `s[:i] + ins + s[i:]`, the splice idiom every script uses to insert
text at a found position (including Python's behaviour when `i` is `-1`,
which arises when a `find` for a newline fails). -/
def pySplice (s : List Char) (i : Int) (ins : List Char) : List Char :=
  pyTake s i ++ ins ++ pyDrop s i

theorem pyTake_append_pyDrop (s : List Char) (i : Int) :
    pyTake s i ++ pyDrop s i = s := by
  simp [pyTake, pyDrop]

theorem length_pySplice (s : List Char) (i : Int) (ins : List Char) :
    (pySplice s i ins).length = s.length + ins.length := by
  have h := congrArg List.length (pyTake_append_pyDrop s i)
  simp only [List.length_append] at h
  simp only [pySplice, List.length_append]
  omega

/-- Python `s.replace(old, new)`: every non-overlapping occurrence, scanning
left to right.  (Python's special case of an empty `old`, which inserts
`new` between all characters, is not reproduced: here an empty `old` leaves
`s` unchanged; every `replace` in the repository uses a non-empty `old`.) -/
def pyReplace (old new : List Char) (s : List Char) : List Char :=
  if h : old ≠ [] ∧ old.isPrefixOf s then
    new ++ pyReplace old new (s.drop old.length)
  else
    match s with
    | [] => []
    | c :: t => c :: pyReplace old new t
termination_by s.length
decreasing_by
  · have hpre : old <+: s := by
      have := h.2
      simpa using this
    have hlen : old.length ≤ s.length := hpre.length_le
    have hne : old.length ≠ 0 := by
      intro hz
      exact h.1 (List.eq_nil_of_length_eq_zero hz)
    simp only [List.length_drop]
    omega
  · simp

/-- Uppercase hex digits of a number, no padding: Python's
`hex(x)[2:].upper()` (used by `comprehensive_fix.generate_xcode_uuid`). -/
def pyHexUpper (n : Nat) : List Char :=
  (Nat.toDigits 16 n).map Char.toUpper

/-- Python's `f-string` format `{n:02X}`: uppercase hex padded to width 2. -/
def pyHex02X (n : Nat) : List Char :=
  let ds := pyHexUpper n
  if ds.length < 2 then List.replicate (2 - ds.length) '0' ++ ds else ds

/-! ## Substring lemmas relating the primitives to `List.IsInfix` -/

theorem pyFindAux_ne_neg_one {needle h : List Char} (i : Nat)
    (hin : needle <:+: h) : pyFindAux needle h i ≠ -1 := by
  induction h generalizing i with
  | nil =>
    rcases hin with ⟨s, t, heq⟩
    have : needle = [] := by
      cases s <;> cases needle <;> simp_all
    rw [pyFindAux]
    simp [this]
  | cons c tl ih =>
    rw [pyFindAux]
    by_cases hp : needle.isPrefixOf (c :: tl)
    · simp [hp]
    · simp only [hp, if_false]
      rcases hin with ⟨s, t, heq⟩
      cases s with
      | nil =>
        exfalso
        apply hp
        simp only [List.nil_append] at heq
        have : needle <+: c :: tl := ⟨t, heq⟩
        simpa using this
      | cons a s' =>
        have : needle <:+: tl := by
          refine ⟨s', t, ?_⟩
          simpa using congrArg List.tail heq
        exact ih (i + 1) this

/-- If `needle` really is a substring, the Python `in` test succeeds. -/
theorem pyContains_of_isInfix {h needle : List Char} (hin : needle <:+: h) :
    pyContains h needle = true := by
  have := pyFindAux_ne_neg_one 0 hin
  simp only [pyContains, pyFind, Int.toNat_zero, List.drop_zero, bne_iff_ne,
    ne_eq]
  exact this

/-- Contrapositive: a failed `in` test rules the substring out. -/
theorem not_isInfix_of_not_pyContains {h needle : List Char}
    (hc : pyContains h needle = false) : ¬ needle <:+: h := by
  intro hin
  have := pyContains_of_isInfix hin
  rw [hc] at this
  exact absurd this (by simp)

/-! ## A faithful matcher for the scripts' regex patterns

Every regex in the embedded scripts is a plain concatenation of string
literals and starred single-character classes (`/*`, `.*?`, `[^}]*?`, `\s*`,
` *`, `[\s\S]*?`).  Such a pattern compiles to a `List RTok`; the matcher
below implements Python `re` semantics for this fragment exactly:
alternatives are tried in priority order (a greedy star offers the longest
repetition first, a lazy star the shortest), and `re.search` returns the
match at the leftmost feasible start position.  A successful match is
reported as the list of lengths consumed by each token, from which group
texts are recovered, since every capturing group in the scripts' patterns
is a contiguous run of tokens. -/

inductive RTok where
  | lit (l : List Char)
  | star (cc : Char → Bool) (greedy : Bool)

/-- Does the token list match a prefix of `s`?  Returns the per-token
consumed lengths of the highest-priority match. -/
def matchToks : List RTok → List Char → Option (List Nat)
  | [], _ => some []
  | .lit l :: rest, s =>
    if l.isPrefixOf s then (matchToks rest (s.drop l.length)).map (l.length :: ·)
    else none
  | .star cc greedy :: rest, s =>
    let m := (s.takeWhile cc).length
    let ks := if greedy then (List.range (m + 1)).reverse else List.range (m + 1)
    ks.findSome? fun k => (matchToks rest (s.drop k)).map (k :: ·)

/-- `re.search`: the leftmost start position admitting a match, with the
match's per-token lengths. -/
def reSearchAux (toks : List RTok) : List Char → Nat → Option (Nat × List Nat)
  | s, i =>
    match matchToks toks s with
    | some lens => some (i, lens)
    | none =>
      match s with
      | [] => none
      | _ :: t => reSearchAux toks t (i + 1)

def reSearch (toks : List RTok) (s : List Char) : Option (Nat × List Nat) :=
  reSearchAux toks s 0

/-- Sum of the first `k` token lengths (offset of the `k`-th token boundary
from the match start). -/
def sumTake (lens : List Nat) (k : Nat) : Nat :=
  (lens.take k).sum

/-- Text of the token range `[a, b)` of a match that starts at `start`
(used to recover `group(i)` texts). -/
def matchSlice (s : List Char) (start : Nat) (lens : List Nat) (a b : Nat) :
    List Char :=
  (s.drop (start + sumTake lens a)).take (sumTake lens b - sumTake lens a)

/-- `re.sub` over the whole string: replaces every non-overlapping match,
scanning the original text left to right (Python continues searching after
the end of each match).  The replacement receives the full text, the match
start and the per-token lengths, so call sites can rebuild Python's
backreference/function replacements.  The fuel is always instantiated as
`s.length + 1`, which suffices because every pattern in the scripts only
matches non-empty text; an empty match falls back to emitting the
replacement and advancing one character, as Python does. -/
def reSubFuel (toks : List RTok)
    (repl : List Char → Nat → List Nat → List Char) :
    Nat → List Char → List Char
  | 0, s => s
  | fuel + 1, s =>
    match reSearch toks s with
    | none => s
    | some (start, lens) =>
      let mlen := sumTake lens lens.length
      let pre := s.take start
      let rest := s.drop (start + mlen)
      if mlen = 0 then
        pre ++ repl s start lens ++
          (match s.drop start with
           | [] => []
           | c :: t => c :: reSubFuel toks repl fuel t)
      else
        pre ++ repl s start lens ++ reSubFuel toks repl fuel rest

def reSub (toks : List RTok)
    (repl : List Char → Nat → List Nat → List Char) (s : List Char) :
    List Char :=
  reSubFuel toks repl (s.length + 1) s

/-- Character class `[^}]` -/
def notBrace (c : Char) : Bool := c != '\x7d'

/-- Character class `[^)]` -/
def notParen (c : Char) : Bool := c != ')'

/-- Character class `.` under `re.DOTALL`, and `[\s\S]` -/
def anyChar (_ : Char) : Bool := true

/-- Python's `\s` -/
def pyWs (c : Char) : Bool :=
  c == ' ' || c == '\t' || c == '\n' || c == '\r' || c == '\x0b' || c == '\x0c'

/-! ## `add_appmodels.py` — `add_appmodels_to_project`

The script reads the project file, builds a `PBXFileReference` line and a
`PBXBuildFile` line for `AppModels.swift` with two fresh identifiers (the
`uuid.uuid4()` draws are passed in as `fid`/`bid`), performs four
independent `str.find`-based insertions, and writes the result back
unconditionally.  Each insertion splices its text at the end of the line on
which the marker was found, i.e. at the *head* of the section or container,
not at its end.  There is no duplicate check of any kind. -/

def appModelsFileRefLine (fid : List Char) : List Char :=
  "\t\t".data ++ fid ++
    (" /* AppModels.swift */ = \x7bisa = PBXFileReference; " ++
     "lastKnownFileType = sourcecode.swift; path = AppModels.swift; " ++
     "sourceTree = \"<group>\"; \x7d;").data

def appModelsBuildFileLine (bid fid : List Char) : List Char :=
  "\t\t".data ++ bid ++
    " /* AppModels.swift in Sources */ = \x7bisa = PBXBuildFile; fileRef = ".data ++
    fid ++ " /* AppModels.swift */; \x7d;".data

/-- Lines 23-31: find the Models group.  The pattern
`'/\* Models \*/ = {'` is passed to `str.find`, not `re`, so it is searched
for literally, backslashes included — a document whose group header reads
`/* Models */ = {` (no backslashes) is never found and the children
insertion silently does not happen. -/
def appModelsGroupStep (fid : List Char) (c : List Char) : List Char :=
  let pos := pyFind c "/\\* Models \\*/ = \x7b".data 0
  if pos != -1 then
    let cs := pyFind c "children = (".data pos
    if cs != -1 then
      let le := pyFind c "\n".data cs
      pySplice c le ("\n\t\t\t\t".data ++ fid ++ " /* AppModels.swift */,".data)
    else c
  else c

/-- Lines 33-45 (both section insertions share this shape): find the
section's `Begin` marker, find the end of that line, and splice the new
record right there — immediately after the section header, before every
existing record. -/
def insertAfterMarkerLine (marker ins : List Char) (c : List Char) : List Char :=
  let p := pyFind c marker 0
  if p != -1 then
    let le := pyFind c "\n".data p
    pySplice c le ("\n".data ++ ins)
  else c

/-- Lines 47-54: find the sources build phase, then its `files = (` opening,
and splice the new member at the end of that opening line — before every
existing member. -/
def appModelsSourcesStep (bid : List Char) (c : List Char) : List Char :=
  let sp := pyFind c "isa = PBXSourcesBuildPhase;".data 0
  if sp != -1 then
    let fs := pyFind c "files = (".data sp
    if fs != -1 then
      let le := pyFind c "\n".data fs
      pySplice c le
        ("\n\t\t\t\t".data ++ bid ++ " /* AppModels.swift in Sources */,".data)
    else c
  else c

/-- The body of `add_appmodels_to_project` as a document transformer
(read → four insertions, in source order). -/
def add_appmodels_to_project (c fid bid : List Char) : List Char :=
  appModelsSourcesStep bid
    (insertAfterMarkerLine "/* Begin PBXBuildFile section */".data
      (appModelsBuildFileLine bid fid)
      (insertAfterMarkerLine "/* Begin PBXFileReference section */".data
        (appModelsFileRefLine fid)
        (appModelsGroupStep fid c)))

/-- The script's single unconditional write of the transformed document
(`with open(...,'w') ... f.write(content)`): the write trace of one run. -/
def add_appmodels_writes (c fid bid : List Char) : List (List Char) :=
  [add_appmodels_to_project c fid bid]

/-! ## `add_critical_missing_files.py` — `main`

Inputs made explicit: the document text, the list of `(filename, filepath)`
pairs that survived the `os.path.exists` filter, and the `os.urandom(12)`
draws as a stream of byte lists.  The backup written before the section
check targets a different path (`project_path + ".backup_before_adding_missing"`)
and is not part of the project-file write trace modelled here. -/

/-- A Python runtime error raised by the embedded code. -/
inductive PyErr where
  | typeError
deriving DecidableEq, Repr

/-- A Python value as far as `ord` is concerned. -/
inductive PyObj where
  | pyint (n : Int)
  | pystr (s : List Char)

/-- Python's `ord`: accepts exactly a one-character string; an `int`
(which is what iterating a `bytes` object yields in Python 3) raises
`TypeError`. -/
def pyOrd : PyObj → Except PyErr Nat
  | .pystr [c] => .ok c.toNat
  | _ => .error .typeError

/-- Line 84: `''.join(f'{ord(c):02X}' for c in os.urandom(12))[:24]`.
Iterating the `bytes` value yields `int` elements, each of which is passed
to `ord`. -/
def urandom_hex_uuid (bs : List Nat) : Except PyErr (List Char) :=
  (fun parts => (List.flatten parts).take 24) <$>
    bs.mapM (fun b => (fun n => pyHex02X n) <$> pyOrd (.pyint b))

/-- `'\n'.join(entries)` -/
def joinNl (l : List (List Char)) : List Char :=
  (l.intersperse "\n".data).flatten

def critBuildEntry (buildU fileU fn : List Char) : List Char :=
  "\t\t".data ++ buildU ++ " /* ".data ++ fn ++
    " in Sources */ = \x7bisa = PBXBuildFile; fileRef = ".data ++ fileU ++
    " /* ".data ++ fn ++ " */; \x7d;".data

def critFileRefEntry (fileU fn : List Char) : List Char :=
  "\t\t".data ++ fileU ++ " /* ".data ++ fn ++
    (" */ = \x7bisa = PBXFileReference; lastKnownFileType = " ++
     "sourcecode.swift; path = ").data ++ fn ++
    "; sourceTree = \"<group>\"; \x7d;".data

def critSourcesEntry (buildU fn : List Char) : List Char :=
  "\t\t\t\t".data ++ buildU ++ " /* ".data ++ fn ++ " in Sources */,".data

/-- Per-request outcome printed by the loop. -/
inductive CritReport where
  | skipped (fn : List Char)
  | adding (fn : List Char)
deriving DecidableEq

/-- Lines 72-100: the entry-generation loop.  A filename already occurring
in the document text is skipped (`continue`) and contributes nothing; any
other filename reaches the `ord`-based identifier expression.  `k` indexes
the `os.urandom` stream (two draws per generated file). -/
def collectCritical (content : List Char) (ur : Nat → List Nat) :
    List (List Char × List Char) → Nat →
    Except PyErr
      (List (List Char) × List (List Char) × List (List Char) × List CritReport)
  | [], _ => .ok ([], [], [], [])
  | (fn, _fp) :: rest, k =>
    if pyContains content fn then
      match collectCritical content ur rest k with
      | .ok (b, f, s, r) => .ok (b, f, s, .skipped fn :: r)
      | .error e => .error e
    else
      match urandom_hex_uuid (ur k) with
      | .error e => .error e
      | .ok buildU =>
        match urandom_hex_uuid (ur (k + 1)) with
        | .error e => .error e
        | .ok fileU =>
          match collectCritical content ur rest (k + 2) with
          | .ok (b, f, s, r) =>
            .ok (critBuildEntry buildU fileU fn :: b,
                 critFileRefEntry fileU fn :: f,
                 critSourcesEntry buildU fn :: s,
                 .adding fn :: r)
          | .error e => .error e

/-- `r'(/\* Sources \*/ = \{[^}]*?files = \([^)]*?)(\);[^}]*?\};)'` with
`re.DOTALL`; group 1 is tokens `[0,4)`, group 2 tokens `[4,7)`. -/
def critSourcesPat : List RTok :=
  [.lit "/* Sources */ = \x7b".data, .star notBrace false,
   .lit "files = (".data, .star notParen false,
   .lit ");".data, .star notBrace false, .lit "\x7d;".data]

/-- How one run of `add_critical_missing_files.main` ends. -/
inductive CritOutcome where
  | sectionsMissing
  | crashed (e : PyErr)
  | completed (reports : List CritReport)

/-- Lines 52-124 of `main` after the existence filter: marker lookups, the
`all(...)` guard (which returns with nothing written on failure), the entry
loop, the three insertions (the first two at the sections' `End` markers,
the third by replacing the matched Sources text), and the final
unconditional write.  Returns the project-file write trace and the
outcome. -/
def add_critical_main (content : List Char)
    (existing : List (List Char × List Char)) (ur : Nat → List Nat) :
    List (List Char) × CritOutcome :=
  let bfs := pyFind content "/* Begin PBXBuildFile section */".data 0
  let bfe := pyFind content "/* End PBXBuildFile section */".data 0
  let frs := pyFind content "/* Begin PBXFileReference section */".data 0
  let fre := pyFind content "/* End PBXFileReference section */".data 0
  let srcm := reSearch critSourcesPat content
  if !(bfs != -1 && bfe != -1 && frs != -1 && fre != -1 && srcm.isSome) then
    ([], .sectionsMissing)
  else
    match collectCritical content ur existing 0 with
    | .error e => ([], .crashed e)
    | .ok (bents, fents, sents, reps) =>
      let content2 :=
        if bents.isEmpty then content
        else
          let c1 := pySplice content bfe
            ("\n".data ++ joinNl bents ++ "\n".data)
          let fre2 := pyFind c1 "/* End PBXFileReference section */".data 0
          let c2 := pySplice c1 fre2
            ("\n".data ++ joinNl fents ++ "\n".data)
          match reSearch critSourcesPat c2 with
          | some (st, lens) =>
            let g0 := matchSlice c2 st lens 0 7
            let g1 := matchSlice c2 st lens 0 4
            let g2 := matchSlice c2 st lens 4 7
            pyReplace g0
              (g1 ++ "\n".data ++ joinNl sents ++ "\n".data ++ g2) c2
          | none => c2
      ([content2], .completed reps)

/-! ## `comprehensive_fix.py` — `add_files_to_xcode_project`

The `uuid.uuid4().bytes` draws are a stream of 16-byte lists (`ub`), file
existence is the predicate `existsP`.  The loop first collects all entries,
checking each basename against the *original* document text; if nothing was
collected the function returns without writing.  Otherwise the three
`re.sub` calls splice the collected entries immediately before the two
section `End` markers and before the Sources phase's closing `);`. -/

/-- `generate_xcode_uuid`: `''.join([hex(x)[2:].upper() for x in
uuid.uuid4().bytes])[:24]` (note `hex(x)[2:]` is unpadded, hence the final
truncation). -/
def generate_xcode_uuid (bytes16 : List Nat) : List Char :=
  ((bytes16.map pyHexUpper).flatten).take 24

inductive CFReport where
  | notFound (fp : List Char)
  | alreadyIn (fn : List Char)
  | prepared (fn : List Char)
deriving DecidableEq

def cfBuildEntry (buildU fileU fn : List Char) : List Char :=
  "\t\t".data ++ buildU ++ " /* ".data ++ fn ++
    " in Sources */ = \x7bisa = PBXBuildFile; fileRef = ".data ++ fileU ++
    " /* ".data ++ fn ++ " */; \x7d;".data

def cfFileRefEntry (fileU fn : List Char) : List Char :=
  "\t\t".data ++ fileU ++ " /* ".data ++ fn ++
    (" */ = \x7bisa = PBXFileReference; lastKnownFileType = " ++
     "sourcecode.swift; path = ").data ++ fn ++
    "; sourceTree = \"<group>\"; \x7d;".data

def cfSourcesEntry (buildU fn : List Char) : List Char :=
  "\t\t\t\t".data ++ buildU ++ " /* ".data ++ fn ++ " in Sources */,".data

/-- Lines 33-59: the collection loop.  `k` indexes the `uuid4` byte stream;
each prepared file consumes two draws (file reference first, build file
second, as in the source). -/
def comprehensiveCollect (content : List Char) (existsP : List Char → Bool)
    (ub : Nat → List Nat) :
    List (List Char × List Char) → Nat →
    List (List Char) × List (List Char) × List (List Char) × List CFReport
  | [], _ => ([], [], [], [])
  | (fp, fn) :: rest, k =>
    if !existsP fp then
      let (b, f, s, r) := comprehensiveCollect content existsP ub rest k
      (b, f, s, .notFound fp :: r)
    else if pyContains content fn then
      let (b, f, s, r) := comprehensiveCollect content existsP ub rest k
      (b, f, s, .alreadyIn fn :: r)
    else
      let fileU := generate_xcode_uuid (ub k)
      let buildU := generate_xcode_uuid (ub (k + 1))
      let (b, f, s, r) := comprehensiveCollect content existsP ub rest (k + 2)
      (cfBuildEntry buildU fileU fn :: b, cfFileRefEntry fileU fn :: f,
       cfSourcesEntry buildU fn :: s, .prepared fn :: r)

/-- `r'(/\* End PBXBuildFile section \*/)'` — a fully escaped literal. -/
def cfEndBuildPat : List RTok := [.lit "/* End PBXBuildFile section */".data]

def cfEndFileRefPat : List RTok :=
  [.lit "/* End PBXFileReference section */".data]

/-- `r'(/\* Sources \*/ = \{[^}]*?files = \([^)]*?)(\s*\);)'` with
`re.DOTALL`; group 1 is tokens `[0,4)`, group 2 tokens `[4,6)`. -/
def cfSourcesPat : List RTok :=
  [.lit "/* Sources */ = \x7b".data, .star notBrace false,
   .lit "files = (".data, .star notParen false,
   .star pyWs true, .lit ");".data]

/-- Lines 21-88 of `add_files_to_xcode_project`: collect, early return with
no write when nothing was prepared, otherwise the three substitutions and
one write. -/
def add_files_to_xcode_project (content : List Char)
    (mappings : List (List Char × List Char)) (existsP : List Char → Bool)
    (ub : Nat → List Nat) : List (List Char) × List CFReport :=
  let (bents, fents, sents, reps) :=
    comprehensiveCollect content existsP ub mappings 0
  if bents.isEmpty then ([], reps)
  else
    let btext := "\n".data ++ joinNl bents ++ "\n\t\t".data
    let c1 := reSub cfEndBuildPat
      (fun s st lens => btext ++ matchSlice s st lens 0 1) content
    let ftext := "\n".data ++ joinNl fents ++ "\n\t\t".data
    let c2 := reSub cfEndFileRefPat
      (fun s st lens => ftext ++ matchSlice s st lens 0 1) c1
    let stext := "\n".data ++ joinNl sents ++ "\n\t\t\t".data
    let c3 := reSub cfSourcesPat
      (fun s st lens =>
        matchSlice s st lens 0 4 ++ stext ++ matchSlice s st lens 4 6) c2
    ([c3], reps)

/-! ## Path helpers for `add_missing_files_to_project.py`

`os.path` arithmetic modelled for the absolute, `/`-separated, already
normalised paths the script passes (no trailing slash, no `.`/`..`
components). -/

def pyBasename (p : List Char) : List Char :=
  ((p.reverse).takeWhile (· != '/')).reverse

def pyDirname (p : List Char) : List Char :=
  let r := (p.reverse).dropWhile (· != '/')
  (r.drop 1).reverse

/-- Split into `/`-separated components. -/
def pathParts (p : List Char) : List (List Char) :=
  (p.splitOn '/').filter (· ≠ [])

def dropCommonPrefix :
    List (List Char) → List (List Char) → List (List Char) × List (List Char)
  | a :: as, b :: bs =>
    if a = b then dropCommonPrefix as bs else (a :: as, b :: bs)
  | as, bs => (as, bs)

/-- `os.path.relpath(path, start)` for two absolute normalised paths:
strip the common component prefix, then one `..` per remaining `start`
component followed by the remaining `path` components. -/
def pyRelpath (path start : List Char) : List Char :=
  let (pRest, sRest) := dropCommonPrefix (pathParts path) (pathParts start)
  let comps := (sRest.map fun _ => "..".data) ++ pRest
  joinSlash comps
where
  joinSlash (l : List (List Char)) : List Char :=
    (l.intersperse "/".data).flatten

/-! ## `add_missing_files_to_project.py` — `add_file_to_project`

The `project_path` is the script's hard-coded constant; `uuid` draws are
the canonical `str(uuid.uuid4())` strings.  All three `re.search` patterns
leave their `/*` and `*/` delimiters unescaped, so as regexes they demand
text of the shape `'/'* … ' '* '/'`; the insertion branches are embedded
faithfully, and the searches are executed by the same matcher. -/

/-- `generate_uuid` of this script:
`str(uuid.uuid4()).replace('-', '').upper()[:24]`. -/
def generate_uuid_canonical (u : List Char) : List Char :=
  ((pyReplace "-".data [] u).map Char.toUpper).take 24

def projectPathB : List Char :=
  "/Users/republicalatuya/Desktop/LyoJune/LyoApp.xcodeproj/project.pbxproj".data

/-- `r'(/* Begin PBXFileReference section */.*?)(/* End PBXFileReference
section */)'` with `re.DOTALL`: the unescaped `/*` is `'/'*` and the
unescaped ` */` is `' '* '/'`.  Group 1 is tokens `[0,5)`, group 2 tokens
`[5,9)`. -/
def bFileRefSectionPat : List RTok :=
  [.star (· == '/') true, .lit " Begin PBXFileReference section".data,
   .star (· == ' ') true, .lit "/".data, .star anyChar false,
   .star (· == '/') true, .lit " End PBXFileReference section".data,
   .star (· == ' ') true, .lit "/".data]

def bBuildFileSectionPat : List RTok :=
  [.star (· == '/') true, .lit " Begin PBXBuildFile section".data,
   .star (· == ' ') true, .lit "/".data, .star anyChar false,
   .star (· == '/') true, .lit " End PBXBuildFile section".data,
   .star (· == ' ') true, .lit "/".data]

/-- `rf'({group_name} = {{.*?children = \()(.*?)(\);)'` with `re.DOTALL`.
Groups: 1 = tokens `[0,3)`, 2 = token 3, 3 = token 4. -/
def bGroupPat (groupName : List Char) : List RTok :=
  [.lit (groupName ++ " = \x7b".data), .star anyChar false,
   .lit "children = (".data, .star anyChar false, .lit ");".data]

/-- `r'(/* Sources */.*?files = \()(.*?)(\);)'` with `re.DOTALL` (unescaped
comment delimiters again).  Groups: 1 = tokens `[0,6)`, 2 = token 6,
3 = token 7. -/
def bSourcesPat : List RTok :=
  [.star (· == '/') true, .lit " Sources".data, .star (· == ' ') true,
   .lit "/".data, .star anyChar false, .lit "files = (".data,
   .star anyChar false, .lit ");".data]

/-- The `file_ref_line` of `add_file_to_project` (line 34). -/
def bFileRefLine (frefU fileName relPath : List Char) : List Char :=
  "\t\t".data ++ frefU ++ " /* ".data ++ fileName ++
    (" */ = \x7bisa = PBXFileReference; lastKnownFileType = " ++
     "sourcecode.swift; name = ").data ++ fileName ++ "; path = ".data ++
    relPath ++ "; sourceTree = SOURCE_ROOT; \x7d;".data

/-- The `build_file_line` of `add_file_to_project` (line 46). -/
def bBuildFileLine (buildU frefU fileName : List Char) : List Char :=
  "\t\t".data ++ buildU ++ " /* ".data ++ fileName ++
    " in Sources */ = \x7bisa = PBXBuildFile; fileRef = ".data ++ frefU ++
    " /* ".data ++ fileName ++ " */; \x7d;".data

/-- Lines 14-90 of `add_file_to_project`: read, path arithmetic, uuid
draws, the basename-in-content duplicate check (which returns `False`
before any write), the four conditional splices, the final write and
`True`.  Returns the write trace of the call plus the function's boolean
result. -/
def add_file_to_project (content filePath : List Char)
    (groupName : Option (List Char)) (frefU buildU : List Char) :
    List (List Char) × Bool :=
  let relPath := pyRelpath filePath (pyDirname projectPathB)
  let fileName := pyBasename filePath
  if pyContains content fileName then ([], false)
  else
    let fileRefLine := bFileRefLine frefU fileName relPath
    let c1 :=
      match reSearch bFileRefSectionPat content with
      | some (st, lens) =>
        let g2 := matchSlice content st lens 5 9
        pyReplace g2 ("\t\t".data ++ fileRefLine ++ "\n\t\t".data ++ g2) content
      | none => content
    let buildFileLine := bBuildFileLine buildU frefU fileName
    let c2 :=
      match reSearch bBuildFileSectionPat c1 with
      | some (st, lens) =>
        let g2 := matchSlice c1 st lens 5 9
        pyReplace g2 ("\t\t".data ++ buildFileLine ++ "\n\t\t".data ++ g2) c1
      | none => c1
    let c3 :=
      match groupName with
      | some g =>
        match reSearch (bGroupPat g) c2 with
        | some (st, lens) =>
          let g0 := matchSlice c2 st lens 0 5
          let g1 := matchSlice c2 st lens 0 3
          let g2t := matchSlice c2 st lens 3 4
          let g3 := matchSlice c2 st lens 4 5
          pyReplace g0
            (g1 ++ g2t ++ "\t\t\t\t".data ++ frefU ++ " /* ".data ++
             fileName ++ " */,\n".data ++ g3) c2
        | none => c2
      | none => c2
    let c4 :=
      match reSearch bSourcesPat c3 with
      | some (st, lens) =>
        let g0 := matchSlice c3 st lens 0 8
        let g1 := matchSlice c3 st lens 0 6
        let g2t := matchSlice c3 st lens 6 7
        let g3 := matchSlice c3 st lens 7 8
        pyReplace g0
          (g1 ++ g2t ++ "\t\t\t\t".data ++ buildU ++ " /* ".data ++
           fileName ++ " in Sources */,\n".data ++ g3) c3
      | none => c3
    ([c4], true)

/-- `main` of `add_missing_files_to_project.py` (lines 92-115): one
`add_file_to_project` call per existing file, each reading the current
on-disk text and writing its result back.  Returns the cumulative
project-file write trace and the final on-disk text.  Two uuid draws per
call, file reference first. -/
def add_missing_files_go (existsP : List Char → Bool) (us : Nat → List Char)
    (disk : List Char) : List (List Char) → Nat → List (List Char) × List Char
  | [], _ => ([], disk)
  | fp :: rest, k =>
    if existsP fp then
      let (w, _ok) := add_file_to_project disk fp none
        (generate_uuid_canonical (us k)) (generate_uuid_canonical (us (k + 1)))
      let disk' := match w with
        | [] => disk
        | d :: _ => d
      let (ws, fin) := add_missing_files_go existsP us disk' rest (k + 2)
      (w ++ ws, fin)
    else
      add_missing_files_go existsP us disk rest k

def add_missing_files_main (disk : List Char) (files : List (List Char))
    (existsP : List Char → Bool) (us : Nat → List Char) :
    List (List Char) × List Char :=
  add_missing_files_go existsP us disk files 0

/-! ## `add_files_to_project.py` — `add_file_to_xcode_project` and its loop

This script's per-call flow: read, two uuid draws, three `re.sub` calls,
one write — there is no duplicate check at all.  The two section patterns
have unescaped `/*`/`*/`; the Sources pattern escapes only its closing
delimiter (`/* Sources \*/ = \{…`), so it opens with `'/'*` followed by
the literal `' Sources */ = {'`, which *does* match a standard document. -/

/-- `generate_uuid` of this script: `uuid.uuid4().hex.upper()[:24]`. -/
def generate_uuid_hex (u : List Char) : List Char :=
  (u.map Char.toUpper).take 24

/-- `r'(/* End PBXBuildFile section */)'` — unescaped. -/
def afpEndBuildPat : List RTok :=
  [.star (· == '/') true, .lit " End PBXBuildFile section".data,
   .star (· == ' ') true, .lit "/".data]

/-- `r'(/* End PBXFileReference section */)'` — unescaped. -/
def afpEndFileRefPat : List RTok :=
  [.star (· == '/') true, .lit " End PBXFileReference section".data,
   .star (· == ' ') true, .lit "/".data]

/-- `r'(/* Sources \*/ = \{[\s\S]*?files = \([\s\S]*?)(\s*\);[\s\S]*?};)'`.
Group 1 is tokens `[0,5)`, group 2 tokens `[5,9)`. -/
def afpSourcesPat : List RTok :=
  [.star (· == '/') true, .lit " Sources */ = \x7b".data,
   .star anyChar false, .lit "files = (".data, .star anyChar false,
   .star pyWs true, .lit ");".data, .star anyChar false, .lit "\x7d;".data]

/-- Lines 11-45 of `add_file_to_xcode_project` as a document transformer
(the caller performs the write). -/
def add_file_to_xcode_project (content fileName frefU buildU : List Char) :
    List Char :=
  let buildFileEntry := "\t\t".data ++ buildU ++ " /* ".data ++ fileName ++
    " in Sources */ = \x7bisa = PBXBuildFile; fileRef = ".data ++ frefU ++
    " /* ".data ++ fileName ++ " */; \x7d;\n\t\x7b\x7d".data
  let c1 := reSub afpEndBuildPat
    (fun s st lens => buildFileEntry ++ "\n".data ++ matchSlice s st lens 0 4)
    content
  let fileRefEntry := "\t\t".data ++ frefU ++ " /* ".data ++ fileName ++
    (" */ = \x7bisa = PBXFileReference; lastKnownFileType = " ++
     "sourcecode.swift; path = ").data ++ fileName ++
    "; sourceTree = \"<group>\"; \x7d;\n\t\x7b\x7d".data
  let c2 := reSub afpEndFileRefPat
    (fun s st lens => fileRefEntry ++ "\n".data ++ matchSlice s st lens 0 4)
    c1
  let c3 := reSub afpSourcesPat
    (fun s st lens =>
      matchSlice s st lens 0 5 ++
      "\t\t\t\t".data ++ buildU ++ " /* ".data ++ fileName ++
      " in Sources */,\n".data ++ matchSlice s st lens 5 9)
    c2
  c3

/-- The module-level loop of `add_files_to_project.py` (lines 61-75): for
each `(file_path, file_name)` pair whose path exists, call
`add_file_to_xcode_project`, which reads the current on-disk text and
writes its result back immediately.  Returns the project-file write trace
and the final on-disk text.  Each processed file consumes two `uuid4.hex`
draws, file reference first. -/
def add_files_go (existsP : List Char → Bool) (us : Nat → List Char)
    (disk : List Char) :
    List (List Char × List Char) → Nat → List (List Char) × List Char
  | [], _ => ([], disk)
  | (fp, fn) :: rest, k =>
    if existsP fp then
      let d' := add_file_to_xcode_project disk fn
        (generate_uuid_hex (us k)) (generate_uuid_hex (us (k + 1)))
      let (ws, fin) := add_files_go existsP us d' rest (k + 2)
      (d' :: ws, fin)
    else
      add_files_go existsP us disk rest k

def add_files_loop (disk : List Char)
    (files : List (List Char × List Char)) (existsP : List Char → Bool)
    (us : Nat → List Char) : List (List Char) × List Char :=
  add_files_go existsP us disk files 0

/-- The document obtained by applying the batch's registrations in order
(the same per-request transform the loop performs, without the writes):
used to state what each intermediate write of `add_files_loop` contains. -/
def applyBatch (existsP : List Char → Bool) (us : Nat → List Char)
    (disk : List Char) :
    List (List Char × List Char) → Nat → List Char
  | [], _ => disk
  | (fp, fn) :: rest, k =>
    if existsP fp then
      applyBatch existsP us
        (add_file_to_xcode_project disk fn
          (generate_uuid_hex (us k)) (generate_uuid_hex (us (k + 1))))
        rest (k + 2)
    else
      applyBatch existsP us disk rest k

/-! ## `fix_project_file_final.py` — the `random.randint` identifier -/

/-- Lines 87-88: `''.join([f'{random.randint(0,255):02X}' for _ in
range(12)])` — twelve byte draws formatted as two uppercase hex digits
each. -/
def randint_uuid (rs : List Nat) : List Char :=
  (rs.map pyHex02X).flatten

/-! ## Concrete test data

A miniature manifest in the layout the scripts expect: one existing
build-file record `B1`, one file reference `F1`, a `Models` group and a
`Sources` build phase each with one existing member. -/

def docA : List Char :=
  ("/* Begin PBXBuildFile section */\n" ++
   "\t\tB1 /* Old.swift in Sources */ = \x7bisa = PBXBuildFile; " ++
   "fileRef = F1 /* Old.swift */; \x7d;\n" ++
   "/* End PBXBuildFile section */\n" ++
   "/* Begin PBXFileReference section */\n" ++
   "\t\tF1 /* Old.swift */ = \x7bisa = PBXFileReference; " ++
   "path = Old.swift; \x7d;\n" ++
   "/* End PBXFileReference section */\n" ++
   "\t\tG1 /* Models */ = \x7b\n\t\t\tisa = PBXGroup;\n" ++
   "\t\t\tchildren = (\n\t\t\t\tF1 /* Old.swift */,\n\t\t\t);\n\t\t\x7d;\n" ++
   "\t\tS1 /* Sources */ = \x7b\n\t\t\tisa = PBXSourcesBuildPhase;\n" ++
   "\t\t\tfiles = (\n\t\t\t\tB1 /* Old.swift in Sources */,\n" ++
   "\t\t\t);\n\t\t\x7d;\n").data

/-- `docA` with its entire `PBXFileReference` section removed — one of the
four required sections cannot be located. -/
def docNoFileRefSection : List Char :=
  ("/* Begin PBXBuildFile section */\n" ++
   "\t\tB1 /* Old.swift in Sources */ = \x7bisa = PBXBuildFile; " ++
   "fileRef = F1 /* Old.swift */; \x7d;\n" ++
   "/* End PBXBuildFile section */\n" ++
   "\t\tS1 /* Sources */ = \x7b\n\t\t\tisa = PBXSourcesBuildPhase;\n" ++
   "\t\t\tfiles = (\n\t\t\t\tB1 /* Old.swift in Sources */,\n" ++
   "\t\t\t);\n\t\t\x7d;\n").data

/-- A small manifest with a UTF-8 header line, as the on-disk documents
have; used for the scripts that run against the current directory. -/
def docB : List Char :=
  ("// !$*UTF8*$!\n" ++
   "/* Begin PBXBuildFile section */\n" ++
   "\t\tB1 /* Old.swift in Sources */ = \x7bisa = PBXBuildFile; " ++
   "fileRef = F1 /* Old.swift */; \x7d;\n" ++
   "/* End PBXBuildFile section */\n" ++
   "/* Begin PBXFileReference section */\n" ++
   "\t\tF1 /* Old.swift */ = \x7bisa = PBXFileReference; " ++
   "path = Old.swift; \x7d;\n" ++
   "/* End PBXFileReference section */\n" ++
   "\t\tS1 /* Sources */ = \x7b\n\t\t\tisa = PBXSourcesBuildPhase;\n" ++
   "\t\t\tfiles = (\n\t\t\t\tB1 /* Old.swift in Sources */,\n" ++
   "\t\t\t);\n\t\t\x7d;\n").data

def fidA1 : List Char := "FAAAAAAAAAAAAAAAAAAAAAA1".data
def bidA1 : List Char := "BAAAAAAAAAAAAAAAAAAAAAA1".data
def fidA2 : List Char := "FAAAAAAAAAAAAAAAAAAAAAA2".data
def bidA2 : List Char := "BAAAAAAAAAAAAAAAAAAAAAA2".data

/-- First run of `add_appmodels_to_project` against `docA`. -/
def appFirstRun : List Char := add_appmodels_to_project docA fidA1 bidA1

/-- The two same-name, different-path registration requests of the
identity-by-path scenario. -/
def widgetPathA : List Char :=
  "/Users/republicalatuya/Desktop/LyoJune/LyoApp/ModuleA/Widget.swift".data

def widgetPathB : List Char :=
  "/Users/republicalatuya/Desktop/LyoJune/LyoApp/ModuleB/Widget.swift".data

/-- A fixed stream of canonical `uuid4` strings for runs whose draws do not
influence the outcome. -/
def uuidStreamB : Nat → List Char :=
  fun _ => "12345678-9abc-4def-8123-456789abcdef".data

/-- Two distinct 32-character `uuid4().hex` draws that agree on their first
24 characters. -/
def uuidHexA : List Char := "aaaaaaaaaaaaaaaaaaaaaaaa00000000".data

def uuidHexB : List Char := "aaaaaaaaaaaaaaaaaaaaaaaa11111111".data

/-- A document that already contains the very token `generate_uuid_hex`
returns for the draw `uuidHexA`. -/
def docWithTokenA : List Char :=
  ("objects = \x7b\n\t\tAAAAAAAAAAAAAAAAAAAAAAAA /* X.swift */ = " ++
   "\x7bisa = PBXFileReference; \x7d;\n\x7d;\n").data

/-- A manifest in which `Done.swift` is fully registered (file reference,
build file wrapping it, and Sources-phase membership, in the exact textual
shapes `add_critical_missing_files.main` generates), plus the section
markers. -/
def fidDone : List Char := "FDDDDDDDDDDDDDDDDDDDDDD1".data

def bidDone : List Char := "BDDDDDDDDDDDDDDDDDDDDDD1".data

def docDone : List Char :=
  "/* Begin PBXBuildFile section */\n".data ++
  critBuildEntry bidDone fidDone "Done.swift".data ++
  ("\n/* End PBXBuildFile section */\n" ++
   "/* Begin PBXFileReference section */\n").data ++
  critFileRefEntry fidDone "Done.swift".data ++
  ("\n/* End PBXFileReference section */\n" ++
   "\t\tS1 /* Sources */ = \x7b\n\t\t\tisa = PBXSourcesBuildPhase;\n" ++
   "\t\t\tfiles = (\n").data ++
  critSourcesEntry bidDone "Done.swift".data ++
  "\n\t\t\t);\n\t\t\x7d;\n".data

/-- A zeroed `os.urandom` stream. -/
def urZero : Nat → List Nat := fun _ => List.replicate 12 0

/-- A `uuid4().bytes` stream for `comprehensive_fix` runs (sixteen bytes
per draw). -/
def ubStream : Nat → List Nat :=
  fun k => List.replicate 16 (if k = 0 then 255 else if k = 1 then 187
    else if k = 2 then 238 else 204)

/-- One-request mapping for the `comprehensive_fix` run used to examine
where new entries land. -/
def cfMappings : List (List Char × List Char) :=
  [("LyoApp/Core/Services/AuthService.swift".data, "AuthService.swift".data)]

/-- The document `comprehensive_fix.add_files_to_xcode_project` writes for
`cfMappings` against `docB`. -/
def cfRunDoc : List Char :=
  ((add_files_to_xcode_project docB cfMappings (fun _ => true) ubStream).1).getD 0 []

/-- Two-request batch for the `add_files_to_project` loop (both files
exist, neither name occurs in `docB`). -/
def afpMappings : List (List Char × List Char) :=
  [("LyoApp/Core/Services/AuthService.swift".data, "AuthService.swift".data),
   ("LyoApp/Core/Network/NetworkManager.swift".data, "NetworkManager.swift".data)]

/-- A fixed stream of `uuid4().hex` draws. -/
def usHexStream : Nat → List Char :=
  fun k => (if k = 0 then "ffffffffffffffffffffffff00000000"
    else if k = 1 then "bbbbbbbbbbbbbbbbbbbbbbbb00000000"
    else if k = 2 then "eeeeeeeeeeeeeeeeeeeeeeee00000000"
    else "cccccccccccccccccccccccc00000000").data

/-- A registration request whose basename `Models.swift` occurs in the
document only as the tail of the longer name `AppModels.swift`. -/
def shadowPath : List Char :=
  "/Users/republicalatuya/Desktop/LyoJune/LyoApp/Core/Models/Models.swift".data

/-- A document that mentions `AppModels.swift` (and therefore contains the
text `Models.swift`) but has no FileReference whose path is
`Models.swift`. -/
def docShadow : List Char :=
  ("// !$*UTF8*$!\n" ++
   "/* Begin PBXBuildFile section */\n" ++
   "/* End PBXBuildFile section */\n" ++
   "/* Begin PBXFileReference section */\n" ++
   "\t\tF9 /* AppModels.swift */ = \x7bisa = PBXFileReference; " ++
   "path = AppModels.swift; \x7d;\n" ++
   "/* End PBXFileReference section */\n").data

/-! ## Helper lemmas -/

theorem length_le_insertAfterMarkerLine (marker ins c : List Char) :
    c.length ≤ (insertAfterMarkerLine marker ins c).length := by
  simp only [insertAfterMarkerLine]
  split
  · rw [length_pySplice]
    omega
  · exact Nat.le_refl _

theorem length_lt_insertAfterMarkerLine (marker ins c : List Char)
    (h : pyFind c marker 0 ≠ -1) :
    c.length < (insertAfterMarkerLine marker ins c).length := by
  simp only [insertAfterMarkerLine]
  have hb : (pyFind c marker 0 != -1) = true := by
    simpa [bne_iff_ne] using h
  rw [hb]
  simp only [if_true, length_pySplice, List.length_append, List.length_cons]
  omega

theorem length_le_appModelsGroupStep (fid c : List Char) :
    c.length ≤ (appModelsGroupStep fid c).length := by
  simp only [appModelsGroupStep]
  split
  · split
    · rw [length_pySplice]
      omega
    · exact Nat.le_refl _
  · exact Nat.le_refl _

theorem length_le_appModelsSourcesStep (bid c : List Char) :
    c.length ≤ (appModelsSourcesStep bid c).length := by
  simp only [appModelsSourcesStep]
  split
  · split
    · rw [length_pySplice]
      omega
    · exact Nat.le_refl _
  · exact Nat.le_refl _

/-! ## Claim theorems -/

/-- C2 (counterexample): re-running the `AppModels.swift` registration with
the identical request (fresh identifier draws, as `uuid4` gives on every
run) against the first run's output does *not* reproduce the first run's
output byte for byte — `add_appmodels_to_project` has no duplicate check,
so the second run splices a second copy of every entry. -/
theorem second_run_not_byte_identical :
    add_appmodels_to_project appFirstRun fidA2 bidA2 ≠ appFirstRun := by
  decide

/-- C2 (amended): for any document in which the (backslash-laden) Models
group literal is absent — as in every standard manifest — and the
`PBXFileReference` section header is present, one run of
`add_appmodels_to_project` strictly grows the text, so a second identical
run never yields a byte-identical document.  Idempotence fails because the
script inserts unconditionally. -/
theorem add_appmodels_run_strictly_grows (d fid bid : List Char)
    (h1 : pyFind d "/\\* Models \\*/ = \x7b".data 0 = -1)
    (h2 : pyFind d "/* Begin PBXFileReference section */".data 0 ≠ -1) :
    d.length < (add_appmodels_to_project d fid bid).length ∧
    add_appmodels_to_project d fid bid ≠ d := by
  have hstep1 : appModelsGroupStep fid d = d := by
    simp only [appModelsGroupStep]
    rw [h1]
    simp
  have hlt : d.length <
      (insertAfterMarkerLine "/* Begin PBXFileReference section */".data
        (appModelsFileRefLine fid) d).length :=
    length_lt_insertAfterMarkerLine _ _ _ h2
  have hle3 := length_le_insertAfterMarkerLine
    "/* Begin PBXBuildFile section */".data (appModelsBuildFileLine bid fid)
    (insertAfterMarkerLine "/* Begin PBXFileReference section */".data
      (appModelsFileRefLine fid) d)
  have hle4 := length_le_appModelsSourcesStep bid
    (insertAfterMarkerLine "/* Begin PBXBuildFile section */".data
      (appModelsBuildFileLine bid fid)
      (insertAfterMarkerLine "/* Begin PBXFileReference section */".data
        (appModelsFileRefLine fid) d))
  have hgrow : d.length < (add_appmodels_to_project d fid bid).length := by
    unfold add_appmodels_to_project
    rw [hstep1]
    exact Nat.lt_of_lt_of_le (Nat.lt_of_lt_of_le hlt hle3) hle4
  refine ⟨hgrow, ?_⟩
  intro heq
  rw [heq] at hgrow
  exact Nat.lt_irrefl _ hgrow

/-- C2 (witness for the amended theorem): the hypotheses hold for the
concrete first-run output, so the second run strictly grows it. -/
theorem add_appmodels_run_strictly_grows_witness :
    pyFind appFirstRun "/\\* Models \\*/ = \x7b".data 0 = -1 ∧
    pyFind appFirstRun "/* Begin PBXFileReference section */".data 0 ≠ -1 ∧
    appFirstRun.length <
      (add_appmodels_to_project appFirstRun fidA2 bidA2).length :=
  ⟨by decide, by decide,
   (add_appmodels_run_strictly_grows appFirstRun fidA2 bidA2
     (by decide) (by decide)).1⟩

/-- C5 (counterexample): `docNoFileRefSection` has no `PBXFileReference`
section at all, yet `add_appmodels_to_project` neither fails nor aborts: it
still splices its build-file record and phase member and the script writes
the mutated document. -/
theorem missing_section_still_mutates_and_writes :
    pyFind docNoFileRefSection "/* Begin PBXFileReference section */".data 0
        = -1 ∧
    add_appmodels_writes docNoFileRefSection fidA1 bidA1 =
      [add_appmodels_to_project docNoFileRefSection fidA1 bidA1] ∧
    add_appmodels_to_project docNoFileRefSection fidA1 bidA1 ≠
      docNoFileRefSection :=
  ⟨by decide, rfl, by decide⟩

/-- C7 (counterexample): after one `add_appmodels_to_project` run against
`docA`, the new `PBXFileReference` record sits *before* the pre-existing
record `F1` of its section, and the new phase member sits *before* the
pre-existing member `B1` — the script inserts at the head of each section
and container, not at the end of the existing ordered sequence. -/
theorem appmodels_inserts_at_head_not_end :
    0 ≤ pyFind appFirstRun (appModelsFileRefLine fidA1) 0 ∧
    pyFind appFirstRun (appModelsFileRefLine fidA1) 0 <
      pyFind appFirstRun "F1 /* Old.swift */ = \x7bisa".data 0 ∧
    0 ≤ pyFind appFirstRun
      "\t\t\t\tBAAAAAAAAAAAAAAAAAAAAAA1 /* AppModels.swift in Sources */,".data
      0 ∧
    pyFind appFirstRun
      "\t\t\t\tBAAAAAAAAAAAAAAAAAAAAAA1 /* AppModels.swift in Sources */,".data
      0 <
    pyFind appFirstRun "\t\t\t\tB1 /* Old.swift in Sources */,".data 0 := by
  refine ⟨by decide, by decide, by decide, by decide⟩

/-- C7 (amended): where new entries land depends on the script.
`comprehensive_fix.add_files_to_xcode_project` does append at the end of
the existing ordered sequences: in its output for one new file against
`docB`, the new FileReference record sits after the pre-existing `F1`
record and before the section's `End` marker, the new BuildFile record
after `B1` and before its `End` marker, and the new phase member after the
pre-existing member; `add_appmodels_to_project` instead inserts its new
record at the head of the section, before the pre-existing record. -/
theorem comprehensive_fix_appends_at_end_appmodels_at_head :
    (0 ≤ pyFind cfRunDoc "\t\tF1 /* Old.swift */ = \x7bisa".data 0 ∧
     pyFind cfRunDoc "\t\tF1 /* Old.swift */ = \x7bisa".data 0 <
       pyFind cfRunDoc
         (cfFileRefEntry (List.replicate 24 'F') "AuthService.swift".data) 0 ∧
     pyFind cfRunDoc
         (cfFileRefEntry (List.replicate 24 'F') "AuthService.swift".data) 0 <
       pyFind cfRunDoc "/* End PBXFileReference section */".data 0) ∧
    (pyFind cfRunDoc "\t\tB1 /* Old.swift in Sources */ = \x7bisa".data 0 <
       pyFind cfRunDoc
         (cfBuildEntry (List.replicate 24 'B') (List.replicate 24 'F')
           "AuthService.swift".data) 0 ∧
     pyFind cfRunDoc
         (cfBuildEntry (List.replicate 24 'B') (List.replicate 24 'F')
           "AuthService.swift".data) 0 <
       pyFind cfRunDoc "/* End PBXBuildFile section */".data 0) ∧
    (0 ≤ pyFind cfRunDoc "\t\t\t\tB1 /* Old.swift in Sources */,".data 0 ∧
     pyFind cfRunDoc "\t\t\t\tB1 /* Old.swift in Sources */,".data 0 <
       pyFind cfRunDoc
         (cfSourcesEntry (List.replicate 24 'B') "AuthService.swift".data) 0) ∧
    (0 ≤ pyFind appFirstRun (appModelsFileRefLine fidA1) 0 ∧
     pyFind appFirstRun (appModelsFileRefLine fidA1) 0 <
       pyFind appFirstRun "\t\tF1 /* Old.swift */ = \x7bisa".data 0) := by
  exact ⟨⟨by decide, by decide, by decide⟩, ⟨by decide, by decide⟩,
    ⟨by decide, by decide⟩, ⟨by decide, by decide⟩⟩

/-- C1 (amended): `add_file_to_project` keys its duplicate check on the
request's *basename* occurring anywhere in the document text, and its
unescaped section/phase regexes never match a standard manifest; whenever
the basename is absent and the three searches fail, the call reports
success (`True`) while writing the document back *unchanged* — it creates
no FileReference for the requested path at all, for any request. -/
theorem add_file_to_project_reports_added_but_writes_unchanged
    (content filePath frefU buildU : List Char)
    (h0 : pyContains content (pyBasename filePath) = false)
    (h1 : reSearch bFileRefSectionPat content = none)
    (h2 : reSearch bBuildFileSectionPat content = none)
    (h3 : reSearch bSourcesPat content = none) :
    add_file_to_project content filePath none frefU buildU =
      ([content], true) := by
  simp only [add_file_to_project, h0, h1, h2, h3, Bool.false_eq_true,
    if_false]

/-- C1 (witness for the amended theorem): concrete run against `docB`. -/
theorem add_file_to_project_reports_added_but_writes_unchanged_witness :
    pyContains docB (pyBasename widgetPathA) = false ∧
    add_file_to_project docB widgetPathA none
      (List.replicate 24 'F') (List.replicate 24 'B') = ([docB], true) :=
  ⟨by decide,
   add_file_to_project_reports_added_but_writes_unchanged docB widgetPathA
     (List.replicate 24 'F') (List.replicate 24 'B')
     (by decide) (by decide) (by decide) (by decide)⟩

/-- C1 (counterexample): registering `ModuleA/Widget.swift` and
`ModuleB/Widget.swift` (same logical name, distinct relative paths) in one
run of `add_missing_files_to_project.main` does *not* produce two distinct
FileReferences: both calls write the document back unchanged and report
success, and the final document contains no FileReference record for
either path (any such record would embed the basename `Widget.swift`,
which never occurs in the output). -/
theorem same_name_distinct_paths_not_registered_distinctly :
    add_missing_files_main docB [widgetPathA, widgetPathB] (fun _ => true)
        uuidStreamB = ([docB, docB], docB) ∧
    ∀ fid : List Char,
      ¬ bFileRefLine fid "Widget.swift".data
          (pyRelpath widgetPathA (pyDirname projectPathB)) <:+: docB ∧
      ¬ bFileRefLine fid "Widget.swift".data
          (pyRelpath widgetPathB (pyDirname projectPathB)) <:+: docB := by
  constructor
  · decide
  · intro fid
    have hnc : pyContains docB "Widget.swift".data = false := by decide
    have hni := not_isInfix_of_not_pyContains hnc
    have hsub : ∀ rp : List Char,
        "Widget.swift".data <:+: bFileRefLine fid "Widget.swift".data rp := by
      intro rp
      refine ⟨"\t\t".data ++ fid ++ " /* ".data,
        (" */ = \x7bisa = PBXFileReference; lastKnownFileType = " ++
         "sourcecode.swift; name = ").data ++ "Widget.swift".data ++
          "; path = ".data ++ rp ++ "; sourceTree = SOURCE_ROOT; \x7d;".data,
        ?_⟩
      simp [bFileRefLine, List.append_assoc]
    constructor <;> intro hin <;> exact hni ((hsub _).trans hin)

/-- C9: in both `add_file_to_project` and
`comprehensive_fix.add_files_to_xcode_project`, a request whose basename
occurs anywhere as a substring of the document text is reported as already
present and skipped — `add_file_to_project` returns `False` with no write,
and the `comprehensive_fix` loop records `already in project` and
contributes no entries while the remaining requests are still processed. -/
theorem basename_substring_causes_skip
    (doc path : List Char) (g : Option (List Char)) (u1 u2 : List Char)
    (doc2 fp2 fn2 : List Char) (rest : List (List Char × List Char))
    (existsP : List Char → Bool) (ub : Nat → List Nat) (k : Nat)
    (h1 : pyBasename path <:+: doc)
    (hex : existsP fp2 = true)
    (h2 : fn2 <:+: doc2) :
    add_file_to_project doc path g u1 u2 = ([], false) ∧
    comprehensiveCollect doc2 existsP ub ((fp2, fn2) :: rest) k =
      ((comprehensiveCollect doc2 existsP ub rest k).1,
       (comprehensiveCollect doc2 existsP ub rest k).2.1,
       (comprehensiveCollect doc2 existsP ub rest k).2.2.1,
       CFReport.alreadyIn fn2 ::
         (comprehensiveCollect doc2 existsP ub rest k).2.2.2) := by
  constructor
  · have hc := pyContains_of_isInfix h1
    simp only [add_file_to_project, hc, if_true]
  · have hc := pyContains_of_isInfix h2
    rcases hE : comprehensiveCollect doc2 existsP ub rest k with ⟨b, f, s, r⟩
    simp only [comprehensiveCollect, hex, hc, Bool.not_true, if_true, hE,
      Bool.false_eq_true, if_false]

/-- C9 (witness): `Models.swift` occurs in `docShadow` only inside
`AppModels.swift` — no FileReference with path `Models.swift` exists — yet
both functions treat the request as already present. -/
theorem basename_substring_causes_skip_witness :
    (pyBasename shadowPath <:+: docShadow) ∧
    ("Models.swift".data <:+: docShadow) ∧
    add_file_to_project docShadow shadowPath none
      (List.replicate 24 'F') (List.replicate 24 'B') = ([], false) ∧
    comprehensiveCollect docShadow (fun _ => true) urZero
        [("p".data, "Models.swift".data)] 0 =
      ([], [], [], [CFReport.alreadyIn "Models.swift".data]) := by
  have h := basename_substring_causes_skip docShadow shadowPath none
    (List.replicate 24 'F') (List.replicate 24 'B') docShadow "p".data
    "Models.swift".data [] (fun _ => true) urZero 0
    (by decide) rfl (by decide)
  exact ⟨by decide, by decide, h.1, by simpa using h.2⟩

/-- Every element of the `add_files_to_project` loop's write trace is the
batch prefix application reached at that point (helper). -/
theorem add_files_go_writes_mem (existsP : List Char → Bool)
    (us : Nat → List Char) :
    ∀ (files : List (List Char × List Char)) (disk : List Char) (k : Nat)
      (d : List Char), d ∈ (add_files_go existsP us disk files k).1 →
      ∃ n, 0 < n ∧ d = applyBatch existsP us disk (files.take n) k := by
  intro files
  induction files with
  | nil =>
    intro disk k d hd
    simp [add_files_go] at hd
  | cons pr rest ih =>
    intro disk k d hd
    obtain ⟨fp, fn⟩ := pr
    by_cases hex : existsP fp
    · simp only [add_files_go, hex, if_true] at hd
      rcases List.mem_cons.mp hd with h | h
      · refine ⟨1, Nat.one_pos, ?_⟩
        simp [applyBatch, hex, h]
      · rcases ih _ _ _ h with ⟨n, hn, hdn⟩
        refine ⟨n + 1, Nat.succ_pos _, ?_⟩
        simpa [applyBatch, hex] using hdn
    · simp only [add_files_go, hex, Bool.false_eq_true, if_false] at hd
      rcases ih _ _ _ hd with ⟨n, hn, hdn⟩
      refine ⟨n + 1, Nat.succ_pos _, ?_⟩
      simpa [applyBatch, hex] using hdn

/-- The loop writes exactly once per existing request (helper). -/
theorem add_files_go_writes_length (existsP : List Char → Bool)
    (us : Nat → List Char) :
    ∀ (files : List (List Char × List Char)) (disk : List Char) (k : Nat),
      (add_files_go existsP us disk files k).1.length =
        (files.filter (fun pr => existsP pr.1)).length := by
  intro files
  induction files with
  | nil =>
    intro disk k
    simp [add_files_go]
  | cons pr rest ih =>
    intro disk k
    obtain ⟨fp, fn⟩ := pr
    by_cases hex : existsP fp
    · simp [add_files_go, hex, ih]
    · simp [add_files_go, hex, ih]

/-- C3 (amended): the batch of `add_files_to_project.py` is not a
transaction with one final commit: the loop performs one write per existing
request, and each written document is the original with exactly the first
`n` registrations applied — so after `k` of `n` requests the partially
mutated document is already on storage, and a failure midway would leave it
there (the script's only recovery is the backup restore in its top-level
exception handler). -/
theorem every_write_is_a_batch_prefix (existsP : List Char → Bool)
    (us : Nat → List Char) (files : List (List Char × List Char))
    (disk : List Char) :
    ((add_files_loop disk files existsP us).1.length =
      (files.filter (fun pr => existsP pr.1)).length) ∧
    ∀ d ∈ (add_files_loop disk files existsP us).1,
      ∃ n, 0 < n ∧ d = applyBatch existsP us disk (files.take n) 0 :=
  ⟨add_files_go_writes_length existsP us files disk 0,
   fun d hd => add_files_go_writes_mem existsP us files disk 0 d hd⟩

/-- C3 (witness for the amended theorem): the two-request batch against
`docB` produces a write trace whose first element is the one-request
prefix application. -/
theorem every_write_is_a_batch_prefix_witness :
    ((add_files_loop docB afpMappings (fun _ => true) usHexStream).1.length =
      (afpMappings.filter (fun _ => true)).length) ∧
    ∃ n, 0 < n ∧
      (add_files_loop docB afpMappings (fun _ => true) usHexStream).1.getD 0 []
        = applyBatch (fun _ => true) usHexStream docB (afpMappings.take n) 0 := by
  have h := every_write_is_a_batch_prefix (fun _ => true) usHexStream
    afpMappings docB
  refine ⟨h.1, ?_⟩
  exact h.2 _ (by decide)

/-- C3 (counterexample): running the two-request batch writes the document
twice; the first committed document differs both from the original and
from the final output — a partially mutated document reaches storage
mid-batch, so the final commit write is not the only external effect and
the batch is not atomic. -/
theorem partial_document_written_mid_batch :
    ((add_files_loop docB afpMappings (fun _ => true) usHexStream).1.length
        = 2) ∧
    (add_files_loop docB afpMappings (fun _ => true) usHexStream).1.getD 0 []
        ≠ docB ∧
    (add_files_loop docB afpMappings (fun _ => true) usHexStream).1.getD 0 []
        ≠
      (add_files_loop docB afpMappings (fun _ => true) usHexStream).1.getD 1
        [] := by
  refine ⟨by decide, by decide, by decide⟩

/-- C4 (counterexample): the identifier generator is a bare truncation of
a random draw — two distinct `uuid4().hex` draws that agree on their first
24 characters yield the *same* token, so a batch of two requested
identifiers is not pairwise distinct; and because the generator never
consults the document, the returned token can equal an identifier already
present (as in `docWithTokenA`). -/
theorem generator_tokens_can_collide :
    uuidHexA ≠ uuidHexB ∧
    generate_uuid_hex uuidHexA = generate_uuid_hex uuidHexB ∧
    ¬ ([uuidHexA, uuidHexB].map generate_uuid_hex).Pairwise (· ≠ ·) ∧
    pyContains docWithTokenA (generate_uuid_hex uuidHexA) = true := by
  refine ⟨by decide, by decide, ?_, by decide⟩
  intro hp
  have : generate_uuid_hex uuidHexA ≠ generate_uuid_hex uuidHexB := by
    simpa using hp
  exact this (by decide)

/-- C4 (amended): the generator always returns one 24-character token per
draw (for the 32-character `uuid4().hex` inputs), but distinctness of a
batch reduces *exactly* to distinctness of the draws' uppercased
24-character prefixes — nothing checks the batch against itself or against
the identifiers already present in the document. -/
theorem generator_token_characterization (us : List (List Char))
    (h : ∀ u ∈ us, u.length = 32) :
    ((us.map generate_uuid_hex).length = us.length) ∧
    (∀ t ∈ us.map generate_uuid_hex, t.length = 24) ∧
    ((us.map generate_uuid_hex).Pairwise (· ≠ ·) ↔
      us.Pairwise
        (fun a b => (a.map Char.toUpper).take 24 ≠ (b.map Char.toUpper).take 24)) := by
  refine ⟨by simp, ?_, ?_⟩
  · intro t ht
    rcases List.mem_map.mp ht with ⟨u, hu, rfl⟩
    have hu32 := h u hu
    simp [generate_uuid_hex, hu32]
  · rw [List.pairwise_map]
    rfl

/-- C4 (witness for the amended theorem). -/
theorem generator_token_characterization_witness :
    (∀ u ∈ [uuidHexA, uuidHexB], u.length = 32) ∧
    ∀ t ∈ [uuidHexA, uuidHexB].map generate_uuid_hex, t.length = 24 :=
  ⟨by decide,
   (generator_token_characterization [uuidHexA, uuidHexB] (by decide)).2.1⟩

/-- C5 (amended): `add_critical_missing_files.main` does abort with
nothing written to the project file when its `all(...)` guard fails — that
is, when either `PBXBuildFile` marker, either `PBXFileReference` marker,
or the Sources-phase pattern cannot be located.  (It never checks a Groups
section or a root group, and `add_appmodels_to_project` — see the
counterexample — mutates and writes regardless of missing sections.) -/
theorem critical_main_aborts_without_write_when_sections_missing
    (content : List Char) (existing : List (List Char × List Char))
    (ur : Nat → List Nat)
    (h : pyFind content "/* Begin PBXBuildFile section */".data 0 = -1 ∨
         pyFind content "/* End PBXBuildFile section */".data 0 = -1 ∨
         pyFind content "/* Begin PBXFileReference section */".data 0 = -1 ∨
         pyFind content "/* End PBXFileReference section */".data 0 = -1 ∨
         reSearch critSourcesPat content = none) :
    add_critical_main content existing ur = ([], .sectionsMissing) := by
  simp only [add_critical_main]
  rcases h with h | h | h | h | h <;> rw [h] <;> simp

/-- C5 (witness for the amended theorem): a document with no markers at
all is rejected with an empty write trace. -/
theorem critical_main_aborts_witness :
    pyFind "x".data "/* Begin PBXBuildFile section */".data 0 = -1 ∧
    add_critical_main "x".data [] urZero = ([], .sectionsMissing) :=
  ⟨by decide,
   critical_main_aborts_without_write_when_sections_missing "x".data [] urZero
     (Or.inl (by decide))⟩

/-- C6: a request whose path is already fully registered — a FileReference
record for it, a BuildFile wrapping that reference, and a Sources-phase
member for that BuildFile all occur in the document — is reported as
skipped by the `add_critical_missing_files` loop, contributes no entries
(so no mutation is applied for it), and the remaining requests of the
batch are processed exactly as they would have been without it. -/
theorem fully_registered_request_skipped_and_batch_continues
    (content fn fp : List Char) (rest : List (List Char × List Char))
    (ur : Nat → List Nat) (k : Nat)
    (h : ∃ fid bid, critFileRefEntry fid fn <:+: content ∧
         critBuildEntry bid fid fn <:+: content ∧
         critSourcesEntry bid fn <:+: content) :
    collectCritical content ur ((fn, fp) :: rest) k =
      match collectCritical content ur rest k with
      | .ok (b, f, s, r) => .ok (b, f, s, .skipped fn :: r)
      | .error e => .error e := by
  rcases h with ⟨fid, bid, h1, _h2, _h3⟩
  have hname : fn <:+: critFileRefEntry fid fn := by
    refine ⟨"\t\t".data ++ fid ++ " /* ".data,
      (" */ = \x7bisa = PBXFileReference; lastKnownFileType = " ++
       "sourcecode.swift; path = ").data ++ fn ++
        "; sourceTree = \"<group>\"; \x7d;".data, ?_⟩
    simp [critFileRefEntry, List.append_assoc]
  have hc := pyContains_of_isInfix (hname.trans h1)
  simp only [collectCritical, hc, if_true]

/-- C6 (witness): `Done.swift` is fully registered in `docDone`; the
request for it is skipped and an empty remainder is processed normally. -/
theorem fully_registered_request_skipped_witness :
    (∃ fid bid, critFileRefEntry fid "Done.swift".data <:+: docDone ∧
       critBuildEntry bid fid "Done.swift".data <:+: docDone ∧
       critSourcesEntry bid "Done.swift".data <:+: docDone) ∧
    collectCritical docDone urZero [("Done.swift".data, "p".data)] 0 =
      .ok ([], [], [], [.skipped "Done.swift".data]) := by
  have h : ∃ fid bid, critFileRefEntry fid "Done.swift".data <:+: docDone ∧
      critBuildEntry bid fid "Done.swift".data <:+: docDone ∧
      critSourcesEntry bid "Done.swift".data <:+: docDone :=
    ⟨fidDone, bidDone, by decide, by decide, by decide⟩
  refine ⟨h, ?_⟩
  have := fully_registered_request_skipped_and_batch_continues docDone
    "Done.swift".data "p".data [] urZero 0 h
  simpa using this

/-- C10: the identifier expression of `add_critical_missing_files.main`
never yields a token: iterating `os.urandom(12)` produces `int` values in
Python 3, and `ord` of an `int` raises `TypeError`, so the expression
raises on its very first element for every (non-empty) draw. -/
theorem urandom_ord_identifier_raises (bs : List Nat) (h : bs ≠ []) :
    urandom_hex_uuid bs = .error .typeError := by
  cases bs with
  | nil => exact absurd rfl h
  | cons b rest => rfl

/-- C10 (witness): the draw `b'\x42' * 12`. -/
theorem urandom_ord_identifier_raises_witness :
    (List.replicate 12 66 ≠ ([] : List Nat)) ∧
    urandom_hex_uuid (List.replicate 12 66) = .error .typeError :=
  ⟨by decide, urandom_ord_identifier_raises _ (by decide)⟩

end LyoJune
